import Mathlib

/-!
Shallow embedding of `src/graphQL/builtins/createCredentialTypes.js`:
the credential GraphQL types (field lists, picture resolvers, the
permission-gated credential resolver) and the `IsConnectionValidator`
schema-validation rule bundled in the same source file.
-/

/-- Association-list lookup keyed by strings; models `Map.get` of the
Immutable maps (`schema.types`, `parameters`, `type.fields`) and plain
JS-object property access used by the source. Returns the value of the
first matching key. -/
def assocGet {β : Type} : List (String × β) → String → Option β
  | [], _ => none
  | (k, v) :: rest, key => if k = key then some v else assocGet rest key

/-- A schema type record: `.name` and `.fields` (field name → field),
as consumed by `IsConnectionValidator.validate`. The field payload is
abstract: the validator only passes it to the external `isConnection`
predicate. -/
structure SchemaType (Field : Type) where
  name : String
  fields : List (String × Field)

/-- The schema object: `.types` maps type names to type records. -/
structure Schema (Field : Type) where
  types : List (String × SchemaType Field)

/-- Errors thrown by `validate` (`throw new Error(...)` in the source);
the spec calls them `SchemaError`. -/
inductive ValidationError where
  | schemaError (msg : String)
deriving DecidableEq, Repr

/-- The `IsConnectionValidator` record: immutable configuration holding
the single `typeParameter` field. -/
structure IsConnectionValidator where
  typeParameter : String

/-- Method `IsConnectionValidator.validate(schema, name, parameters)`
from the source. `isConnection` is the external connection-field predicate
(imported from outside this file in the source), passed as a parameter.
The lookup chain models
`schema.types.get(parameters.get(this.typeParameter))`: a missing
parameter value or a missing type both leave `existingType` undefined. -/
def IsConnectionValidator.validate {Field : Type}
    (v : IsConnectionValidator) (isConnection : Field → Bool)
    (schema : Schema Field) (name : String)
    (parameters : List (String × String)) : Except ValidationError Bool :=
  let existingType :=
    (assocGet parameters v.typeParameter).bind
      (fun typeName => assocGet schema.types typeName)
  match existingType with
  | none => Except.ok true
  | some existing =>
    match assocGet existing.fields name with
    | none =>
      Except.error (ValidationError.schemaError
        ("Type \"" ++ existing.name ++ "\" does not have a field \"" ++
          name ++ "\"."))
    | some existingField =>
      if isConnection existingField then
        Except.ok true
      else
        Except.error (ValidationError.schemaError
          ("Field \"" ++ name ++ "\" of \"" ++ existing.name ++
            "\" is not a connection. Expected a connection field."))

/-- The caller's identity context (`context.credentials` in the source):
the `isAdmin` flag and the (possibly absent) `userID`. -/
structure Credentials where
  isAdmin : Bool
  userID : Option String

/-- The parent user record as seen by the credential resolver: its
`__node.id` and the stored per-provider credential sub-records
(`parent[provider]`, absent = `undefined`). -/
structure UserParent (α : Type) where
  nodeId : String
  stored : String → Option α

/-- The error thrown by the credential resolver (`UserError` in the
source; the spec's `PermissionError`). -/
inductive ResolveError where
  | userError (msg : String)
deriving DecidableEq, Repr

/-- The exact message of the permission error thrown by
`createCredentialResolve`. -/
def credentialPermissionMessage (provider : String) : String :=
  "User lacks permissions to read nodes of type `User` with fields " ++
    "`credentials." ++ provider ++ "`."

/-- Resolver `createCredentialResolve(provider)` applied to `(parent,
args, context)`: returns the stored sub-record when the caller is an admin or
`isEqual(credentials.userID, parent.__node.id)` holds, else throws. -/
def createCredentialResolve {α : Type} (provider : String)
    (parent : UserParent α) (context : Credentials) :
    Except ResolveError (Option α) :=
  if context.isAdmin || context.userID = some parent.nodeId then
    Except.ok (parent.stored provider)
  else
    Except.error (ResolveError.userError (credentialPermissionMessage provider))

/-- Split a character list at the first occurrence of `sep`: the part
before it and, when `sep` occurs, the part after it. -/
def splitAtFirstChar : List Char → Char → List Char × Option (List Char)
  | [], _ => ([], none)
  | c :: rest, sep =>
    if c = sep then ([], some rest)
    else
      let tail := splitAtFirstChar rest sep
      (c :: tail.1, tail.2)

/-- Split a character list at every occurrence of `sep` (the list of
parts; an empty input gives one empty part, as `splitOn` does). -/
def splitAllChar : List Char → Char → List (List Char)
  | [], _ => [[]]
  | c :: rest, sep =>
    let parts := splitAllChar rest sep
    if c = sep then [] :: parts
    else
      match parts with
      | [] => [[c]]
      | p :: ps => (c :: p) :: ps

/-- Query strings: parse one `k=v` part (split at the first `=`; a part
without `=` gets an empty value), as the Node `querystring` parse used
by `Url.parse(url, true)` does. -/
def parseQueryPart (part : List Char) : String × String :=
  match splitAtFirstChar part '=' with
  | (k, none) => (String.mk k, "")
  | (k, some v) => (String.mk k, String.mk v)

/-- Parse a whole query string into key/value pairs. -/
def parseQuery (q : String) : List (String × String) :=
  if q = "" then [] else (splitAllChar q.data '&').map parseQueryPart

/-- Split a URL at its first `?` into base and parsed query pairs;
models `Url.parse(url, true)` as far as the Google resolver needs. -/
def splitUrl (url : String) : String × List (String × String) :=
  match splitAtFirstChar url.data '?' with
  | (base, none) => (String.mk base, [])
  | (base, some rest) => (String.mk base, parseQuery (String.mk rest))

/-- Set key `k` to value `v` in a parsed query: update the existing
entry in place, or append; models `urlObject.query.sz = ...` on the JS
query object. -/
def setParam (q : List (String × String)) (k v : String) :
    List (String × String) :=
  if q.any (fun p => p.1 = k) then
    q.map (fun p => if p.1 = k then (k, v) else p)
  else
    q ++ [(k, v)]

/-- Remove key `k` from a parsed query; models `delete urlObject.query.sz`. -/
def removeParam (q : List (String × String)) (k : String) :
    List (String × String) :=
  q.filter (fun p => p.1 ≠ k)

/-- Serialize query pairs back to `k1=v1&k2=v2`; models the
`querystring`/`Qs.stringify` output for these plain string values. -/
def formatQuery : List (String × String) → String
  | [] => ""
  | [(k, v)] => k ++ "=" ++ v
  | (k, v) :: rest => k ++ "=" ++ v ++ "&" ++ formatQuery rest

/-- Reassemble a URL from base and query pairs; models `Url.format`
after `delete urlObject.search` (the query object wins; an empty query
yields no `?`). -/
def formatUrl (base : String) (q : List (String × String)) : String :=
  if q = [] then base else base ++ "?" ++ formatQuery q

/-- The Google credential `picture` resolver: `parent.picture` absent or
falsy (empty) yields null; otherwise set `sz` when `args.size` is truthy
(a nonzero integer), else delete it, and reformat the URL. -/
def googlePictureResolve (parentPicture : Option String)
    (size : Option Int) : Option String :=
  match parentPicture with
  | none => none
  | some url =>
    if url = "" then none
    else
      let parsed := splitUrl url
      let query :=
        match size with
        | some n => if n ≠ 0 then setParam parsed.2 "sz" (toString n)
                    else removeParam parsed.2 "sz"
        | none => removeParam parsed.2 "sz"
      some (formatUrl parsed.1 query)

/-- The `ReindexTwitterPictureSize` enum. -/
inductive ReindexTwitterPictureSize where
  | normal
  | bigger
  | mini
  | original
deriving DecidableEq, Repr

/-- The string value of a Twitter picture size (the GraphQL enum value
interpolated into `'_' + args.size + '.'`). -/
def ReindexTwitterPictureSize.str : ReindexTwitterPictureSize → String
  | .normal => "normal"
  | .bigger => "bigger"
  | .mini => "mini"
  | .original => "original"

/-- Replace the first occurrence of `pat` in a character list; models
the JS `String.prototype.replace` with a non-global literal regex. -/
def replaceFirstList (s pat repl : List Char) : List Char :=
  match s with
  | [] => []
  | c :: rest =>
    if pat.isPrefixOf (c :: rest) then repl ++ (c :: rest).drop pat.length
    else c :: replaceFirstList rest pat repl

/-- Replace the first occurrence of `pat` in `s` by `repl`; models
`url.replace(/_normal\./, ...)` (non-global regex: first match only). -/
def replaceFirst (s pat repl : String) : String :=
  String.mk (replaceFirstList s.data pat.data repl.data)

/-- The Twitter credential `picture` resolver: absent or falsy (empty)
stored URL yields null; the `size` argument defaults to `original`
(GraphQL `defaultValue`); `original` strips the `_normal.` token, other
sizes replace it with `_<size>.`. -/
def twitterPictureResolve (parentPicture : Option String)
    (size : Option ReindexTwitterPictureSize) : Option String :=
  let s := size.getD ReindexTwitterPictureSize.original
  match parentPicture with
  | none => none
  | some url =>
    if url = "" then none
    else if s = ReindexTwitterPictureSize.original then
      some (replaceFirst url "_normal." ".")
    else
      some (replaceFirst url "_normal." ("_" ++ s.str ++ "."))

/-- The Facebook credential `picture` resolver: builds
`https://graph.facebook.com/v2.3/<parent.id>/picture` and appends
`Qs.stringify(pick(args, 'width', 'height'), skipNulls)` when nonempty.
Absent and null arguments both contribute nothing (`pick` drops missing
keys and `skipNulls` skips nulls). -/
def facebookPictureResolve (parentId : String)
    (width height : Option Int) : String :=
  let url := "https://graph.facebook.com/v2.3/" ++ parentId ++ "/picture"
  let pairs :=
    (match width with
     | some w => [("width", toString w)]
     | none => []) ++
    (match height with
     | some h => [("height", toString h)]
     | none => [])
  if pairs = [] then url else url ++ "?" ++ formatQuery pairs

/-- The five identity providers of `ReindexCredentialCollection`. -/
inductive CredentialProvider where
  | auth0
  | facebook
  | github
  | google
  | twitter
deriving DecidableEq, Fintype

/-- Field names returned by `getBaseCredentialFields` in source order. -/
def getBaseCredentialFields : List String :=
  ["accessToken", "displayName", "id"]

/-- Field names of each generated credential type, in source order: the
spread of `getBaseCredentialFields` followed by the provider-specific
field definitions as written in `createCredentialTypes`. -/
def credentialTypeFields : CredentialProvider → List String
  | .auth0 => getBaseCredentialFields ++ ["email", "picture"]
  | .facebook => getBaseCredentialFields ++ ["email", "picture"]
  | .github => getBaseCredentialFields ++ ["email", "picture", "username"]
  | .google => getBaseCredentialFields ++ ["email", "picture"]
  | .twitter =>
    getBaseCredentialFields ++ ["accessTokenSecret", "picture", "username"]

/-- Modelled from the spec: the documented provider-specific extra
fields (Auth0: email, picture; GitHub: email, picture, username;
Facebook: email, picture; Google: email, picture; Twitter:
accessTokenSecret, picture, username), for comparison with the fields
of the generated types. -/
def specDocumentedExtras : CredentialProvider → List String
  | .auth0 => ["email", "picture"]
  | .facebook => ["email", "picture"]
  | .github => ["email", "picture", "username"]
  | .google => ["email", "picture"]
  | .twitter => ["accessTokenSecret", "picture", "username"]

/-- Helper: looking up `k` after `setParam q k v` finds `v`, in the
update branch of `setParam`. -/
theorem assocGet_update (q : List (String × String)) (k v : String)
    (h : q.any (fun p => p.1 = k) = true) :
    assocGet (q.map (fun p => if p.1 = k then (k, v) else p)) k = some v := by
  induction q with
  | nil => simp at h
  | cons p t ih =>
    by_cases hp : p.1 = k
    · rw [List.map_cons, if_pos hp]
      simp [assocGet]
    · rw [List.map_cons, if_neg hp]
      simp only [List.any_cons, Bool.or_eq_true, decide_eq_true_eq] at h
      rcases h with h | h
      · exact absurd h hp
      · simp [assocGet, hp, ih h]

/-- Helper: looking up `k` in `q ++ [(k, v)]` finds `v` when `q` has no
entry for `k`, in the append branch of `setParam`. -/
theorem assocGet_append_single (q : List (String × String)) (k v : String)
    (h : q.any (fun p => p.1 = k) = false) :
    assocGet (q ++ [(k, v)]) k = some v := by
  induction q with
  | nil => simp [assocGet]
  | cons p t ih =>
    simp only [List.any_cons, Bool.or_eq_false_iff, decide_eq_false_iff_not] at h
    simp only [List.cons_append, assocGet, if_neg h.1]
    exact ih (by simpa using h.2)

/-- Helper: after `setParam q k v`, looking up `k` yields `v`. -/
theorem assocGet_setParam (q : List (String × String)) (k v : String) :
    assocGet (setParam q k v) k = some v := by
  cases hq : q.any (fun p => p.1 = k) with
  | true => simpa [setParam, hq] using assocGet_update q k v hq
  | false => simpa [setParam, hq] using assocGet_append_single q k v hq

/-- Helper: after `removeParam q k`, looking up `k` yields nothing. -/
theorem assocGet_removeParam (q : List (String × String)) (k : String) :
    assocGet (removeParam q k) k = none := by
  induction q with
  | nil => rfl
  | cons p t ih =>
    by_cases hp : p.1 = k
    · simpa [removeParam, List.filter_cons, hp] using ih
    · simpa [removeParam, List.filter_cons, hp, assocGet] using ih

/-- Sample concrete parent user record used by closed witnesses. -/
def sampleParent : UserParent Nat :=
  ⟨"user1", fun p => if p = "github" then some 1 else none⟩

/-- Sample concrete schema type used by closed witnesses: a `Post` type
whose `comments` field is a connection and `title` is not (fields are
plain booleans, fed to the predicate `fun b => b`). -/
def samplePostType : SchemaType Bool :=
  ⟨"Post", [("comments", true), ("title", false)]⟩

/-- Sample concrete schema holding only `samplePostType`. -/
def sampleSchema : Schema Bool :=
  ⟨[("Post", samplePostType)]⟩

/-- C1: resolving a provider credential field returns the stored
provider sub-record when the caller is an admin or the caller's userID
equals the parent's `__node.id` (so with `isAdmin = true` it always
succeeds, regardless of userID); otherwise it fails with the permission
error, whose message names the violated field path
`credentials.<provider>`. -/
theorem createCredentialResolve_permission_check {α : Type}
    (provider : String) (parent : UserParent α) (context : Credentials) :
    ((context.isAdmin = true ∨ context.userID = some parent.nodeId) →
      createCredentialResolve provider parent context =
        Except.ok (parent.stored provider)) ∧
    (context.isAdmin = false → context.userID ≠ some parent.nodeId →
      createCredentialResolve provider parent context =
        Except.error (ResolveError.userError
          (credentialPermissionMessage provider)) ∧
      credentialPermissionMessage provider =
        "User lacks permissions to read nodes of type `User` with fields `" ++
          ("credentials." ++ provider) ++ "`.") := by
  refine ⟨fun h => ?_, fun h1 h2 => ⟨?_, ?_⟩⟩
  · rcases h with h | h <;> simp [createCredentialResolve, h]
  · simp [createCredentialResolve, h1, h2]
  · apply String.ext
    simp [credentialPermissionMessage, String.data_append]

/-- Witness for C1 at concrete inputs: an admin caller with a userID
different from the owner's node id still reads the stored record, and a
non-admin, non-owner caller gets the permission error naming
`credentials.github`. -/
theorem createCredentialResolve_permission_check_witness :
    createCredentialResolve "github" sampleParent ⟨true, some "other"⟩ =
      Except.ok (some 1) ∧
    createCredentialResolve "github" sampleParent ⟨false, some "other"⟩ =
      Except.error (ResolveError.userError
        (credentialPermissionMessage "github")) := by
  constructor
  · have h :=
      (createCredentialResolve_permission_check "github" sampleParent
        ⟨true, some "other"⟩).1 (Or.inl rfl)
    simpa [sampleParent] using h
  · exact ((createCredentialResolve_permission_check "github" sampleParent
      ⟨false, some "other"⟩).2 rfl (by decide)).1

/-- C9: an authorized caller gets the stored sub-record with no
existence check: when the parent record holds no credential for the
provider, the resolver returns the absent value rather than an error. -/
theorem createCredentialResolve_no_existence_check {α : Type}
    (provider : String) (parent : UserParent α) (context : Credentials)
    (hauth : context.isAdmin = true ∨ context.userID = some parent.nodeId)
    (habsent : parent.stored provider = none) :
    createCredentialResolve provider parent context = Except.ok none := by
  rcases hauth with h | h <;> simp [createCredentialResolve, h, habsent]

/-- Witness for C9: `sampleParent` stores no `auth0` credential; an
admin caller reading it gets `none`, not an error. -/
theorem createCredentialResolve_no_existence_check_witness :
    createCredentialResolve "auth0" sampleParent ⟨true, none⟩ =
      Except.ok none :=
  createCredentialResolve_no_existence_check "auth0" sampleParent
    ⟨true, none⟩ (Or.inl rfl) (by decide)

/-- C2: when the `typeParameter` lookup in the parameters yields no
value, or the resulting type name is absent from `schema.types`,
`validate` performs no further checks and returns `true`. -/
theorem validate_absent_type_ok {Field : Type} (v : IsConnectionValidator)
    (isConnection : Field → Bool) (schema : Schema Field) (name : String)
    (parameters : List (String × String))
    (h : assocGet parameters v.typeParameter = none ∨
      ∀ typeName, assocGet parameters v.typeParameter = some typeName →
        assocGet schema.types typeName = none) :
    v.validate isConnection schema name parameters = Except.ok true := by
  rcases h with h | h
  · simp [IsConnectionValidator.validate, h]
  · cases e : assocGet parameters v.typeParameter with
    | none => simp [IsConnectionValidator.validate, e]
    | some typeName =>
      simp [IsConnectionValidator.validate, e, h typeName e]

/-- Witness for C2: a schema without the referenced `Post` type makes
`validate` succeed vacuously. -/
theorem validate_absent_type_ok_witness :
    (IsConnectionValidator.mk "type").validate (fun b : Bool => b)
      ⟨[]⟩ "comments" [("type", "Post")] = Except.ok true :=
  validate_absent_type_ok (IsConnectionValidator.mk "type")
    (fun b : Bool => b) ⟨[]⟩ "comments" [("type", "Post")]
    (Or.inr (fun _ _ => rfl))

/-- C3: when the referenced type exists but has no field of the given
name, `validate` fails with the SchemaError whose message cites the
type name and the field name. -/
theorem validate_missing_field_error {Field : Type}
    (v : IsConnectionValidator) (isConnection : Field → Bool)
    (schema : Schema Field) (name : String)
    (parameters : List (String × String)) (typeName : String)
    (existing : SchemaType Field)
    (h1 : assocGet parameters v.typeParameter = some typeName)
    (h2 : assocGet schema.types typeName = some existing)
    (h3 : assocGet existing.fields name = none) :
    v.validate isConnection schema name parameters =
      Except.error (ValidationError.schemaError
        ("Type \"" ++ existing.name ++ "\" does not have a field \"" ++
          name ++ "\".")) := by
  simp [IsConnectionValidator.validate, h1, h2, h3]

/-- Witness for C3: `Post` has no `author` field, so `validate` fails
with exactly the documented message. -/
theorem validate_missing_field_error_witness :
    (IsConnectionValidator.mk "type").validate (fun b : Bool => b)
      sampleSchema "author" [("type", "Post")] =
      Except.error (ValidationError.schemaError
        "Type \"Post\" does not have a field \"author\".") :=
  validate_missing_field_error (IsConnectionValidator.mk "type")
    (fun b : Bool => b) sampleSchema "author" [("type", "Post")]
    "Post" samplePostType rfl rfl rfl

/-- C4: when the referenced type exists and has the named field,
`validate` fails with the "not a connection" SchemaError exactly when
the external `isConnection` predicate rejects the field, and returns
`true` when it accepts it. -/
theorem validate_connection_predicate {Field : Type}
    (v : IsConnectionValidator) (isConnection : Field → Bool)
    (schema : Schema Field) (name : String)
    (parameters : List (String × String)) (typeName : String)
    (existing : SchemaType Field) (existingField : Field)
    (h1 : assocGet parameters v.typeParameter = some typeName)
    (h2 : assocGet schema.types typeName = some existing)
    (h3 : assocGet existing.fields name = some existingField) :
    (v.validate isConnection schema name parameters =
        Except.error (ValidationError.schemaError
          ("Field \"" ++ name ++ "\" of \"" ++ existing.name ++
            "\" is not a connection. Expected a connection field.")) ↔
      isConnection existingField = false) ∧
    (isConnection existingField = true →
      v.validate isConnection schema name parameters = Except.ok true) := by
  cases hc : isConnection existingField <;>
    simp [IsConnectionValidator.validate, h1, h2, h3, hc]

/-- Witness for C4 at concrete inputs: the connection field `comments`
of `Post` validates to `true`, and the non-connection field `title`
fails with the documented message. -/
theorem validate_connection_predicate_witness :
    (IsConnectionValidator.mk "type").validate (fun b : Bool => b)
      sampleSchema "comments" [("type", "Post")] = Except.ok true ∧
    (IsConnectionValidator.mk "type").validate (fun b : Bool => b)
      sampleSchema "title" [("type", "Post")] =
      Except.error (ValidationError.schemaError
        ("Field \"title\" of \"Post\" is not a connection. " ++
          "Expected a connection field.")) := by
  constructor
  · exact (validate_connection_predicate (IsConnectionValidator.mk "type")
      (fun b : Bool => b) sampleSchema "comments" [("type", "Post")]
      "Post" samplePostType true rfl rfl rfl).2 rfl
  · exact (validate_connection_predicate (IsConnectionValidator.mk "type")
      (fun b : Bool => b) sampleSchema "title" [("type", "Post")]
      "Post" samplePostType false rfl rfl rfl).1.mpr rfl

/-- C5: for a truthy stored Twitter picture URL, the resolver replaces
the first `_normal.` token with `_<size>.` for the non-`original` sizes
and strips it (replaces with `.`) for `original`, which is also the
behavior when no size argument is given (the default). -/
theorem twitterPictureResolve_spec (url : String) (hurl : url ≠ "") :
    (∀ s : ReindexTwitterPictureSize,
      s ≠ ReindexTwitterPictureSize.original →
      twitterPictureResolve (some url) (some s) =
        some (replaceFirst url "_normal." ("_" ++ s.str ++ "."))) ∧
    twitterPictureResolve (some url)
        (some ReindexTwitterPictureSize.original) =
      some (replaceFirst url "_normal." ".") ∧
    twitterPictureResolve (some url) none =
      some (replaceFirst url "_normal." ".") := by
  refine ⟨fun s hs => ?_, ?_, ?_⟩
  · simp [twitterPictureResolve, hurl, hs]
  · simp [twitterPictureResolve, hurl]
  · simp [twitterPictureResolve, hurl]

/-- Witness for C5 at the spec's example URL: size `bigger` yields the
`_bigger.` variant and the absent (default `original`) size strips the
token. -/
theorem twitterPictureResolve_spec_witness :
    twitterPictureResolve
        (some "http://pbs.twimg.com/profile_images/1/avatar_normal.png")
        (some ReindexTwitterPictureSize.bigger) =
      some "http://pbs.twimg.com/profile_images/1/avatar_bigger.png" ∧
    twitterPictureResolve
        (some "http://pbs.twimg.com/profile_images/1/avatar_normal.png")
        none =
      some "http://pbs.twimg.com/profile_images/1/avatar.png" := by
  have h := twitterPictureResolve_spec
    "http://pbs.twimg.com/profile_images/1/avatar_normal.png" (by decide)
  constructor
  · rw [h.1 ReindexTwitterPictureSize.bigger (by decide)]
    decide
  · rw [h.2.2]
    decide

/-- C6 counterexample: with size `0` (a falsy value) the Google picture
resolver does not set `sz=0`; it removes the `sz` parameter instead. -/
theorem googlePictureResolve_size_zero_counterexample :
    googlePictureResolve
        (some "https://lh3.googleusercontent.com/a/photo?sz=50") (some 0) =
      some "https://lh3.googleusercontent.com/a/photo" ∧
    googlePictureResolve
        (some "https://lh3.googleusercontent.com/a/photo?sz=50") (some 0) ≠
      some "https://lh3.googleusercontent.com/a/photo?sz=0" := by
  constructor <;> decide

/-- C6 (amended): for a truthy stored Google picture URL, a nonzero
size argument yields the URL reformatted with its `sz` query parameter
set to that size, and an absent size argument yields the URL
reformatted with `sz` removed. -/
theorem googlePictureResolve_sz_param (url : String) (hurl : url ≠ "")
    (n : Int) (hn : n ≠ 0) :
    (googlePictureResolve (some url) (some n) =
      some (formatUrl (splitUrl url).1
        (setParam (splitUrl url).2 "sz" (toString n))) ∧
     assocGet (setParam (splitUrl url).2 "sz" (toString n)) "sz" =
      some (toString n)) ∧
    (googlePictureResolve (some url) none =
      some (formatUrl (splitUrl url).1 (removeParam (splitUrl url).2 "sz")) ∧
     assocGet (removeParam (splitUrl url).2 "sz") "sz" = none) := by
  refine ⟨⟨?_, assocGet_setParam _ _ _⟩, ⟨?_, assocGet_removeParam _ _⟩⟩
  · simp [googlePictureResolve, hurl, hn]
  · simp [googlePictureResolve, hurl]

/-- Witness for C6 (amended) at the spec's example URL: size `100`
rewrites `sz=50` to `sz=100`, and no size removes `sz`. -/
theorem googlePictureResolve_sz_param_witness :
    googlePictureResolve
        (some "https://lh3.googleusercontent.com/a/photo?sz=50")
        (some 100) =
      some "https://lh3.googleusercontent.com/a/photo?sz=100" ∧
    googlePictureResolve
        (some "https://lh3.googleusercontent.com/a/photo?sz=50") none =
      some "https://lh3.googleusercontent.com/a/photo" := by
  have h := googlePictureResolve_sz_param
    "https://lh3.googleusercontent.com/a/photo?sz=50" (by decide)
    100 (by decide)
  constructor
  · rw [h.1.1]
    decide
  · rw [h.2.1]
    decide

/-- C10: the Google picture resolver decides by truthiness of the size
argument: size `0` behaves exactly like an absent size argument. -/
theorem googlePictureResolve_falsy_size (url : String) (hurl : url ≠ "") :
    googlePictureResolve (some url) (some 0) =
      googlePictureResolve (some url) none := by
  simp [googlePictureResolve, hurl]

/-- Witness for C10 at the spec's example URL. -/
theorem googlePictureResolve_falsy_size_witness :
    googlePictureResolve
        (some "https://lh3.googleusercontent.com/a/photo?sz=50") (some 0) =
      googlePictureResolve
        (some "https://lh3.googleusercontent.com/a/photo?sz=50") none :=
  googlePictureResolve_falsy_size
    "https://lh3.googleusercontent.com/a/photo?sz=50" (by decide)

/-- C7: the Facebook picture resolver returns
`https://graph.facebook.com/v2.3/<parent.id>/picture` with
`?width=<w>&height=<h>` appended when those arguments are given (a
given subset contributes only its own parameters, width first) and with
no query string when no arguments are given. -/
theorem facebookPictureResolve_spec (parentId : String) (w h : Int) :
    facebookPictureResolve parentId none none =
      "https://graph.facebook.com/v2.3/" ++ parentId ++ "/picture" ∧
    facebookPictureResolve parentId (some w) (some h) =
      "https://graph.facebook.com/v2.3/" ++ parentId ++ "/picture?width=" ++
        toString w ++ "&height=" ++ toString h ∧
    facebookPictureResolve parentId (some w) none =
      "https://graph.facebook.com/v2.3/" ++ parentId ++ "/picture?width=" ++
        toString w ∧
    facebookPictureResolve parentId none (some h) =
      "https://graph.facebook.com/v2.3/" ++ parentId ++ "/picture?height=" ++
        toString h := by
  refine ⟨?_, ?_, ?_, ?_⟩ <;>
    · apply String.ext
      simp [facebookPictureResolve, formatQuery, String.data_append]

/-- C8: each generated credential type consists of exactly the three
base fields plus the provider's documented extras (with no duplicates,
hence no other fields). -/
theorem credentialTypeFields_exact :
    ∀ p : CredentialProvider,
      credentialTypeFields p =
        ["accessToken", "displayName", "id"] ++ specDocumentedExtras p ∧
      (credentialTypeFields p).Nodup := by
  decide
